import Mathlib

/-!
Shallow embedding of `docs/generate_mars_gif.py`.

Python floats are modelled as real numbers, Python object identity for
`Point3D` instances is modelled by an arena: the generator keeps one list of
points and every `Line` stores the two arena indices of its endpoints, so two
segments share an endpoint exactly when they store the same index.  The global
`random.random()` stream is modelled by an explicit stream `u : ℕ → ℝ` of
draws, consumed in source order (five draws per shading stroke), and the
`random.choice` calls of the shader by a stream of picked indices.
-/

open Real List

namespace MarsGif

/-- `Point3D.__init__`: original coordinates plus the transient rotated and
projected fields, initialised exactly as in the source
(`rotated_* = original`, `projected_2d_* = 0`). -/
structure Point3D where
  x : ℝ
  y : ℝ
  z : ℝ
  rotated_x : ℝ
  rotated_y : ℝ
  rotated_z : ℝ
  projected_2d_x : ℝ
  projected_2d_y : ℝ

/-- The `Point3D(x, y, z)` constructor. -/
def mkPoint3D (x y z : ℝ) : Point3D :=
  ⟨x, y, z, x, y, z, 0, 0⟩

instance : Inhabited Point3D := ⟨mkPoint3D 0 0 0⟩

/-- `Line.__init__`: endpoints are arena indices (object references in the
source); color, width and the overlay flag as initialised there. -/
structure Line where
  point1 : ℕ
  point2 : ℕ
  color : String
  width : ℝ
  is_artifact : Bool

/-- The `Line(point1, point2)` constructor. -/
def mkLine (p1 p2 : ℕ) : Line :=
  ⟨p1, p2, "#FF6B35", 1, false⟩

instance : Inhabited Line := ⟨mkLine 0 0⟩

/-! ### Generator constants (`MarsGifGenerator.__init__`) -/

def canvas_width : ℕ := 400

def canvas_height : ℕ := 400

/-- `self.radius = min(self.canvas_width, self.canvas_height) * 0.3`. -/
noncomputable def radius : ℝ := min (400 : ℝ) 400 * 0.3

noncomputable def center_x : ℝ := 400 / 2

noncomputable def center_y : ℝ := 400 / 2

def latitude_lines : ℕ := 40

def longitude_lines : ℕ := 48

def shading_density : ℕ := 1200

/-- `self.axial_tilt = 25.19 * math.pi / 180`. -/
noncomputable def axial_tilt : ℝ := 25.19 * π / 180

theorem radius_eq : radius = 120 := by
  rw [radius, min_self]; norm_num

/-! ### Color palettes (`self.colors`) -/

def colors_light : List String := ["#FF6B35", "#FF8C42", "#FFA552", "#FFB366"]

def colors_medium : List String := ["#C44536", "#D4573B", "#E06940", "#B43D2F"]

def colors_dark : List String := ["#8B2E1F", "#6B1F14", "#4A1410", "#2C0D0A"]

def colors_shadow : List String := ["#1A0806", "#0D0403", "#000000"]

/-- `random.choice(xs)`, with the random draw modelled as a picked index. -/
def randChoice (pick : ℕ) (xs : List String) : String :=
  xs.getD (pick % xs.length) "#FF6B35"

/-! ### Geometry builders -/

/-- The spherical parameterisation used (inline) by every builder:
`(radius*sin θ*cos φ, radius*cos θ, radius*sin θ*sin φ)`. -/
noncomputable def spherePoint (θ φ : ℝ) : Point3D :=
  mkPoint3D (radius * Real.sin θ * Real.cos φ) (radius * Real.cos θ)
    (radius * Real.sin θ * Real.sin φ)

/-- `create_sphere_points`, parameterised over the configured line counts
(the source reads them from `self`): one vertex per `(lat, lon)` with
`lat ∈ range(L+1)`, `lon ∈ range(M+1)`. -/
noncomputable def create_sphere_points (L M : ℕ) : List Point3D :=
  (List.range (L + 1)).flatMap fun (lat : ℕ) =>
    (List.range (M + 1)).map fun (lon : ℕ) =>
      spherePoint ((lat : ℝ) * π / (L : ℝ)) ((lon : ℝ) * (2 * π) / (M : ℝ))

/-- The latitude half of `create_structural_lines`:
segment `(lat, lon) — (lat, lon+1)` for `lat ∈ range(L+1)`, `lon ∈ range(M)`. -/
def latitudeSegments (L M : ℕ) : List Line :=
  (List.range (L + 1)).flatMap fun lat =>
    (List.range M).map fun lon =>
      mkLine (lat * (M + 1) + lon) (lat * (M + 1) + lon + 1)

/-- The longitude half of `create_structural_lines`:
segment `(lat, lon) — (lat+1, lon)` for `lon ∈ range(M+1)`, `lat ∈ range(L)`. -/
def longitudeSegments (L M : ℕ) : List Line :=
  (List.range (M + 1)).flatMap fun lon =>
    (List.range L).map fun lat =>
      mkLine (lat * (M + 1) + lon) ((lat + 1) * (M + 1) + lon)

/-- `create_structural_lines`: latitude segments followed by longitude
segments, endpoints referring into the `create_sphere_points` arena. -/
def create_structural_lines (L M : ℕ) : List Line :=
  latitudeSegments L M ++ longitudeSegments L M

/-- The biased azimuth of shading stroke `i`:
`final_phi1 = phi1 * 0.5 + π * 0.75` when `bias < 0.6`, else `phi1`,
with `phi1 = u(5i+1) * 2π` and `bias = u(5i+2)`. -/
noncomputable def finalPhi (u : ℕ → ℝ) (i : ℕ) : ℝ :=
  if u (5 * i + 2) < 0.6 then (u (5 * i + 1) * (2 * π)) * 0.5 + π * 0.75
  else u (5 * i + 1) * (2 * π)

/-- One iteration of the `create_shading_lines` loop: five sequential
`random.random()` draws `u(5i) .. u(5i+4)` produce the two endpoints. -/
noncomputable def shadingStroke (u : ℕ → ℝ) (i : ℕ) : Point3D × Point3D :=
  let theta1 := u (5 * i) * π
  let theta2 := theta1 + (u (5 * i + 3) - 0.5) * 0.5
  let phi2 := finalPhi u i + (u (5 * i + 4) - 0.5) * 0.5
  (spherePoint theta1 (finalPhi u i), spherePoint theta2 phi2)

/-- `create_shading_lines`, as the list of endpoint pairs produced by the
loop (one stroke per iteration, `density` iterations). -/
noncomputable def create_shading_lines (u : ℕ → ℝ) (density : ℕ) :
    List (Point3D × Point3D) :=
  (List.range density).map (shadingStroke u)

/-- The `w_shape` helper of `create_w_artifact` (`x % 1` is `Int.fract` for
Python floats). -/
noncomputable def w_shape (x : ℝ) : ℝ :=
  let normalized := Int.fract x * 4
  if normalized < 1 then normalized
  else if normalized < 2 then 2 - normalized
  else if normalized < 3 then normalized - 2
  else 4 - normalized

/-- One iteration of the `create_w_artifact` loop. -/
noncomputable def artifactStroke (i : ℕ) : Point3D × Point3D :=
  let segments : ℝ := 50
  let w_width := π / 12
  let w_height : ℝ := 0.225
  let t := (i : ℝ) / segments
  let next_t := ((i : ℝ) + 1) / segments
  let lat1 := (w_shape t - 0.5) * w_height
  let lat2 := (w_shape next_t - 0.5) * w_height
  (spherePoint (π / 2 - lat1) (t * w_width),
   spherePoint (π / 2 - lat2) (next_t * w_width))

/-- `create_w_artifact`, as the list of endpoint pairs (50 segments). -/
noncomputable def create_w_artifact : List (Point3D × Point3D) :=
  (List.range 50).map artifactStroke

/-! ### The assembled generator state -/

/-- Number of sphere vertices, `(latitude_lines+1)*(longitude_lines+1)`. -/
def nSphere : ℕ := (latitude_lines + 1) * (longitude_lines + 1)

/-- The point arena of a freshly constructed generator: the shared sphere
vertices, then the two fresh points of each shading stroke, then the two
fresh points of each overlay stroke. -/
noncomputable def initPoints (u : ℕ → ℝ) : List Point3D :=
  create_sphere_points latitude_lines longitude_lines
    ++ (create_shading_lines u shading_density).flatMap (fun s => [s.1, s.2])
    ++ create_w_artifact.flatMap (fun s => [s.1, s.2])

/-- `self.all_lines = structural + shading + w_artifact`, with the shading and
overlay lines pointing at their own fresh arena slots and the overlay lines
flagged `is_artifact = True`. -/
def initLines : List Line :=
  create_structural_lines latitude_lines longitude_lines
    ++ (List.range shading_density).map
        (fun i => mkLine (nSphere + 2 * i) (nSphere + 2 * i + 1))
    ++ (List.range 50).map
        (fun i =>
          ⟨nSphere + 2 * shading_density + 2 * i,
           nSphere + 2 * shading_density + 2 * i + 1, "#FF6B35", 1, true⟩)

/-- The mutable state of `MarsGifGenerator` that a frame touches. -/
structure GenState where
  points : List Point3D
  lines : List Line

/-! ### Transform engine -/

/-- `rotate_x(point, angle)`: reads the point's ORIGINAL `x/y/z` fields and
returns the rotated triple (the source returns a dict). -/
noncomputable def rotate_x (p : Point3D) (angle : ℝ) : ℝ × ℝ × ℝ :=
  (p.x, p.y * Real.cos angle - p.z * Real.sin angle,
   p.y * Real.sin angle + p.z * Real.cos angle)

/-- `rotate_y(point_or_dict, angle)` applied to a dict (the branch used by
`update_geometry`). -/
noncomputable def rotate_y (v : ℝ × ℝ × ℝ) (angle : ℝ) : ℝ × ℝ × ℝ :=
  (v.1 * Real.cos angle + v.2.2 * Real.sin angle, v.2.1,
   -v.1 * Real.sin angle + v.2.2 * Real.cos angle)

/-- `project_3d(point)`: fills the projected fields from the rotated ones;
`perspective = 800`. -/
noncomputable def project_3d (p : Point3D) : Point3D :=
  let perspective : ℝ := 800
  let scale := perspective / (perspective + p.rotated_z)
  ⟨p.x, p.y, p.z, p.rotated_x, p.rotated_y, p.rotated_z,
   p.rotated_x * scale + center_x, p.rotated_y * scale + center_y⟩

/-- The per-point body of `update_geometry`: axial tilt about X first, then
the frame rotation about Y, both from the original coordinates, then
projection. -/
noncomputable def updatePoint (angle_y : ℝ) (p : Point3D) : Point3D :=
  let r := rotate_y (rotate_x p axial_tilt) angle_y
  project_3d ⟨p.x, p.y, p.z, r.1, r.2.1, r.2.2, p.projected_2d_x, p.projected_2d_y⟩

/-! ### Shader -/

/-- The lighting scalar of `get_color_for_point`: the midpoint's rotated
position divided by the radius, dotted with the light vector
`(-0.5, -0.7, 1)`. -/
noncomputable def lightingOf (p : Point3D) : ℝ :=
  (p.rotated_x / radius) * (-0.5) + (p.rotated_y / radius) * (-0.7)
    + (p.rotated_z / radius) * 1

/-- The four palette bands of `self.colors`. -/
inductive Band
  | light
  | medium
  | dark
  | shadow
deriving DecidableEq

/-- The palette list for each band. -/
def palette : Band → List String
  | Band.light => colors_light
  | Band.medium => colors_medium
  | Band.dark => colors_dark
  | Band.shadow => colors_shadow

/-- The band-selection cascade of `get_color_for_point`
(`> 0.5`, `> 0`, `> -0.3`, else). -/
noncomputable def bandFor (lighting : ℝ) : Band :=
  if lighting > 0.5 then Band.light
  else if lighting > 0 then Band.medium
  else if lighting > -0.3 then Band.dark
  else Band.shadow

/-- `get_color_for_point(point)` with the `random.choice` draw modelled as a
picked index. -/
noncomputable def get_color_for_point (pick : ℕ) (p : Point3D) : String :=
  if lightingOf p > 0.5 then randChoice pick colors_light
  else if lightingOf p > 0 then randChoice pick colors_medium
  else if lightingOf p > -0.3 then randChoice pick colors_dark
  else randChoice pick colors_shadow

/-- The midpoint `Point3D` built by `update_geometry` from the two endpoints'
rotated coordinates (the constructor copies them into the rotated fields). -/
noncomputable def midPoint (pts : List Point3D) (l : Line) : Point3D :=
  let p1 := pts.getD l.point1 default
  let p2 := pts.getD l.point2 default
  mkPoint3D ((p1.rotated_x + p2.rotated_x) / 2) ((p1.rotated_y + p2.rotated_y) / 2)
    ((p1.rotated_z + p2.rotated_z) / 2)

/-- `avg_z = (line.point1.rotated_z + line.point2.rotated_z) / 2`. -/
noncomputable def avgZ (pts : List Point3D) (l : Line) : ℝ :=
  ((pts.getD l.point1 default).rotated_z + (pts.getD l.point2 default).rotated_z) / 2

/-- The per-line body of `update_geometry`: overlay lines get one of two
fixed colors and width 8.0; other lines get a shaded color and width
0.8 / 0.4 by the sign of `avg_z`.  Endpoint indices and the overlay flag
are copied through unchanged. -/
noncomputable def shadeLine (pts : List Point3D) (pick : ℕ) (l : Line) : Line :=
  if l.is_artifact then
    ⟨l.point1, l.point2,
     if avgZ pts l > 0 then "#FF6B35" else "#8B2E1F", 8.0, l.is_artifact⟩
  else
    ⟨l.point1, l.point2, get_color_for_point pick (midPoint pts l),
     if avgZ pts l > 0 then 0.8 else 0.4, l.is_artifact⟩

/-- The line loop of `update_geometry`, consuming one `random.choice` pick per
line in list order. -/
noncomputable def shadeLines (pts : List Point3D) (picks : ℕ → ℕ) :
    ℕ → List Line → List Line
  | _, [] => []
  | k, l :: rest => shadeLine pts (picks k) l :: shadeLines pts picks (k + 1) rest

/-- `update_geometry(angle_y)`: every point of the arena is re-rotated and
re-projected from its original coordinates (each unique point exactly once),
then every line is re-shaded. -/
noncomputable def update_geometry (angle_y : ℝ) (picks : ℕ → ℕ) (s : GenState) :
    GenState :=
  let pts := s.points.map (updatePoint angle_y)
  ⟨pts, shadeLines pts picks 0 s.lines⟩

/-! ### Frame renderer -/

/-- `opacity = int(255 * (0.9 if avg_z > 0 else 0.5))`. -/
noncomputable def lineOpacity (z : ℝ) : ℤ :=
  ⌊(255 : ℝ) * (if z > 0 then 0.9 else 0.5)⌋

/-- The depth sort of `draw_frame`:
`sorted(self.all_lines, key=lambda line: avg_z(line))`. -/
noncomputable def sortedLines (pts : List Point3D) (ls : List Line) : List Line :=
  ls.mergeSort fun a b => decide (avgZ pts a ≤ avgZ pts b)

/-- Python `int()` on a float: truncation toward zero. -/
noncomputable def pyInt (x : ℝ) : ℤ :=
  if 0 ≤ x then ⌊x⌋ else -⌊-x⌋

/-- `width = max(1, int(line.width))`. -/
noncomputable def lineIntWidth (w : ℝ) : ℤ :=
  max 1 (pyInt w)

/-- The offset grid of the width simulation:
`(i - width // 2, j - width // 2)` for `i, j in range(width)`. -/
noncomputable def drawOffsets (W : ℝ) : List (ℤ × ℤ) :=
  let w := lineIntWidth W
  (List.range w.toNat).flatMap fun (i : ℕ) =>
    (List.range w.toNat).map fun (j : ℕ) => ((i : ℤ) - w / 2, (j : ℤ) - w / 2)

/-- `draw_frame(angle_y)`: updates the geometry, then emits the draw calls in
depth-sorted order, pairing each line with its opacity.  Returns the mutated
state together with the draw sequence. -/
noncomputable def draw_frame (angle_y : ℝ) (picks : ℕ → ℕ) (s : GenState) :
    GenState × List (Line × ℤ) :=
  let s2 := update_geometry angle_y picks s
  (s2, (sortedLines s2.points s2.lines).map fun l => (l, lineOpacity (avgZ s2.points l)))

/-! ### Animation driver -/

/-- `start_angle = -math.pi / 6`. -/
noncomputable def start_angle : ℝ := -π / 6

/-- Python `range(n)` for a possibly negative bound. -/
def pyRange (n : ℤ) : List ℕ :=
  List.range n.toNat

/-- The errors a `generate_gif` run can raise.  The source raises only
`IndexError` (at `images[0]` when no frame was produced); `configError` is the
configuration failure the specification asks for, which no code path
produces. -/
inductive PyError
  | indexError
  | configError
deriving DecidableEq

/-- The frame loop of `generate_gif`: renders each angle in turn, threading
the mutated generator state. -/
noncomputable def runFrames (picks : ℕ → ℕ) :
    GenState → List ℝ → List (List (Line × ℤ))
  | _, [] => []
  | s, a :: rest =>
    let r := draw_frame a picks s
    r.2 :: runFrames picks r.1 rest

/-- `generate_gif(frames=...)`: builds the geometry, renders `frames` frames
at linearly advancing angles, then accesses `images[0]` to save — which
raises `IndexError` when the frame list is empty and otherwise succeeds with
the ordered frame sequence. -/
noncomputable def generate_gif (u : ℕ → ℝ) (picks : ℕ → ℕ) (frames : ℤ) :
    Except PyError (List (List (Line × ℤ))) :=
  match runFrames picks ⟨initPoints u, initLines⟩
      ((pyRange frames).map fun (f : ℕ) =>
        start_angle + ((f : ℝ) * (2 * π)) / (frames : ℝ)) with
  | [] => Except.error PyError.indexError
  | i :: rest => Except.ok (i :: rest)

/-! ## Claim theorems -/

/-- The axial-tilt rotation about the X axis exactly as the specification
states it: `Rx(t)(x,y,z) = (x, y·cos t − z·sin t, y·sin t + z·cos t)`. -/
noncomputable def RxSpec (t : ℝ) (v : ℝ × ℝ × ℝ) : ℝ × ℝ × ℝ :=
  (v.1, v.2.1 * Real.cos t - v.2.2 * Real.sin t,
   v.2.1 * Real.sin t + v.2.2 * Real.cos t)

/-- The spin rotation about the Y axis exactly as the specification states
it: `Ry(a)(x,y,z) = (x·cos a + z·sin a, y, −x·sin a + z·cos a)`. -/
noncomputable def RySpec (a : ℝ) (v : ℝ × ℝ × ℝ) : ℝ × ℝ × ℝ :=
  (v.1 * Real.cos a + v.2.2 * Real.sin a, v.2.1,
   -v.1 * Real.sin a + v.2.2 * Real.cos a)

/-- C1: `update_geometry` transforms every point of the arena with
`updatePoint`, the tilt is 25.19 degrees in radians, and for a point whose
stale rotated/projected fields are arbitrary (`rx ry rz px py`), the new
rotated coordinates equal `Ry(a)(Rx(tilt)(x, y, z))` computed from the
original coordinates alone — the stale fields do not appear in the result. -/
theorem update_geometry_rotates_from_originals :
    (∀ (a : ℝ) (picks : ℕ → ℕ) (s : GenState),
      (update_geometry a picks s).points = s.points.map (updatePoint a)) ∧
    axial_tilt = 25.19 * π / 180 ∧
    ∀ (a x y z rx ry rz px py : ℝ),
      ((updatePoint a ⟨x, y, z, rx, ry, rz, px, py⟩).rotated_x,
       (updatePoint a ⟨x, y, z, rx, ry, rz, px, py⟩).rotated_y,
       (updatePoint a ⟨x, y, z, rx, ry, rz, px, py⟩).rotated_z) =
        RySpec a (RxSpec axial_tilt (x, y, z)) :=
  ⟨fun _ _ _ => rfl, rfl, fun _ _ _ _ _ _ _ _ _ => rfl⟩

theorem length_flatMap_const {α β : Type} (l : List α) (f : α → List β) (k : ℕ)
    (h : ∀ a ∈ l, (f a).length = k) : (l.flatMap f).length = l.length * k := by
  induction l with
  | nil => simp
  | cons a t ih =>
    simp only [List.flatMap_cons, List.length_append, List.length_cons]
    rw [h a (List.mem_cons_self a t), ih fun b hb => h b (List.mem_cons_of_mem _ hb)]
    ring

theorem gridIndex_lt {L M lat lon : ℕ} (hlat : lat ≤ L) (hlon : lon ≤ M) :
    lat * (M + 1) + lon < (L + 1) * (M + 1) := by
  have h1 : (lat + 1) * (M + 1) = lat * (M + 1) + (M + 1) := by ring
  have h2 : (lat + 1) * (M + 1) ≤ (L + 1) * (M + 1) :=
    Nat.mul_le_mul_right _ (by omega)
  linarith

/-- C2: the grid builder produces `(L+1)·(M+1)` vertices, `(L+1)·M` latitude
segments and `(M+1)·L` longitude segments, and every structural segment's
endpoints are the arena indices of adjacent grid vertices (index sharing is
the arena rendering of Python object sharing). -/
theorem grid_construction_counts (L M : ℕ) (hL : 0 < L) (hM : 0 < M) :
    (create_sphere_points L M).length = (L + 1) * (M + 1) ∧
    (latitudeSegments L M).length = (L + 1) * M ∧
    (longitudeSegments L M).length = (M + 1) * L ∧
    (create_structural_lines L M).length = (L + 1) * M + (M + 1) * L ∧
    (∀ l ∈ latitudeSegments L M, ∃ lat lon, lat ≤ L ∧ lon < M ∧
      l.point1 = lat * (M + 1) + lon ∧ l.point2 = lat * (M + 1) + lon + 1 ∧
      l.point1 < (L + 1) * (M + 1) ∧ l.point2 < (L + 1) * (M + 1)) ∧
    (∀ l ∈ longitudeSegments L M, ∃ lat lon, lat < L ∧ lon ≤ M ∧
      l.point1 = lat * (M + 1) + lon ∧ l.point2 = (lat + 1) * (M + 1) + lon ∧
      l.point1 < (L + 1) * (M + 1) ∧ l.point2 < (L + 1) * (M + 1)) := by
  have hsph : (create_sphere_points L M).length = (L + 1) * (M + 1) := by
    have h := length_flatMap_const (List.range (L + 1))
      (fun (lat : ℕ) => (List.range (M + 1)).map fun (lon : ℕ) =>
        spherePoint ((lat : ℝ) * π / (L : ℝ)) ((lon : ℝ) * (2 * π) / (M : ℝ)))
      (M + 1) (fun a _ => by simp)
    rw [create_sphere_points, h, List.length_range]
  have hlat : (latitudeSegments L M).length = (L + 1) * M := by
    have h := length_flatMap_const (List.range (L + 1))
      (fun lat => (List.range M).map fun lon =>
        mkLine (lat * (M + 1) + lon) (lat * (M + 1) + lon + 1))
      M (fun a _ => by simp)
    rw [latitudeSegments, h, List.length_range]
  have hlon : (longitudeSegments L M).length = (M + 1) * L := by
    have h := length_flatMap_const (List.range (M + 1))
      (fun lon => (List.range L).map fun lat =>
        mkLine (lat * (M + 1) + lon) ((lat + 1) * (M + 1) + lon))
      L (fun a _ => by simp)
    rw [longitudeSegments, h, List.length_range]
  refine ⟨hsph, hlat, hlon, ?_, ?_, ?_⟩
  · rw [create_structural_lines, List.length_append, hlat, hlon]
  · intro l hl
    simp only [latitudeSegments, List.mem_flatMap, List.mem_map, List.mem_range] at hl
    obtain ⟨lat, hlat, lon, hlon, rfl⟩ := hl
    have hlat2 : lat ≤ L := by omega
    have hb1 := gridIndex_lt hlat2 (le_of_lt hlon)
    have hb2 := gridIndex_lt hlat2 (show lon + 1 ≤ M by omega)
    exact ⟨lat, lon, hlat2, hlon, rfl, rfl, hb1, by rw [mkLine]; dsimp only; linarith⟩
  · intro l hl
    simp only [longitudeSegments, List.mem_flatMap, List.mem_map, List.mem_range] at hl
    obtain ⟨lon, hlon, lat, hlat, rfl⟩ := hl
    have hlon2 : lon ≤ M := by omega
    have hb1 := gridIndex_lt (show lat ≤ L by omega) hlon2
    have hb2 := gridIndex_lt (show lat + 1 ≤ L by omega) hlon2
    exact ⟨lat, lon, hlat, hlon2, rfl, rfl, hb1, hb2⟩

theorem grid_construction_counts_witness :
    0 < 1 ∧ (create_sphere_points 1 1).length = 2 * 2 ∧
      (create_structural_lines 1 1).length = 2 * 1 + 2 * 1 :=
  ⟨Nat.one_pos, (grid_construction_counts 1 1 Nat.one_pos Nat.one_pos).1,
   (grid_construction_counts 1 1 Nat.one_pos Nat.one_pos).2.2.2.1⟩

theorem sortedLines_perm (pts : List Point3D) (ls : List Line) :
    (sortedLines pts ls).Perm ls :=
  List.mergeSort_perm ls _

theorem sortedLines_sorted (pts : List Point3D) (ls : List Line) :
    List.Sorted (fun l1 l2 => avgZ pts l1 ≤ avgZ pts l2) (sortedLines pts ls) := by
  have h := @List.sorted_mergeSort Line
    (fun l1 l2 => decide (avgZ pts l1 ≤ avgZ pts l2))
    (fun l1 l2 l3 h1 h2 => by
      simp only [decide_eq_true_eq] at h1 h2 ⊢
      exact le_trans h1 h2)
    (fun l1 l2 => by
      simp only [Bool.or_eq_true, decide_eq_true_eq]
      exact le_total _ _)
    ls
  exact List.Pairwise.imp (fun hab => by simpa using hab) h

theorem lineOpacity_of_pos {z : ℝ} (h : 0 < z) : lineOpacity z = 229 := by
  rw [lineOpacity, if_pos h, show (255 : ℝ) * 0.9 = 229.5 by norm_num]
  rw [Int.floor_eq_iff] <;> norm_num

theorem lineOpacity_of_nonpos {z : ℝ} (h : z ≤ 0) : lineOpacity z = 127 := by
  rw [lineOpacity, if_neg (not_lt.mpr h), show (255 : ℝ) * 0.5 = 127.5 by norm_num]
  rw [Int.floor_eq_iff] <;> norm_num

/-- C3: `draw_frame` emits its draw calls in ascending order of the average
rotated Z of each segment's endpoints (the drawn sequence is a permutation of
the segment list, sorted by that key), and each segment's opacity is one of
exactly two levels chosen by the sign of its average rotated Z — the higher
level (229) when it is positive, the lower (127) otherwise. -/
theorem draw_frame_painter_order (a : ℝ) (picks : ℕ → ℕ) (s : GenState) (z : ℝ) :
    ((draw_frame a picks s).2 =
      (sortedLines (update_geometry a picks s).points
          (update_geometry a picks s).lines).map
        fun l => (l, lineOpacity (avgZ (update_geometry a picks s).points l))) ∧
    (sortedLines (update_geometry a picks s).points
        (update_geometry a picks s).lines).Perm (update_geometry a picks s).lines ∧
    List.Sorted
      (fun l1 l2 => avgZ (update_geometry a picks s).points l1 ≤
        avgZ (update_geometry a picks s).points l2)
      (sortedLines (update_geometry a picks s).points
        (update_geometry a picks s).lines) ∧
    (0 < z → lineOpacity z = 229) ∧
    (z ≤ 0 → lineOpacity z = 127) ∧
    (127 : ℤ) < 229 :=
  ⟨rfl, sortedLines_perm _ _, sortedLines_sorted _ _,
   fun h => lineOpacity_of_pos h, fun h => lineOpacity_of_nonpos h, by norm_num⟩

theorem draw_frame_painter_order_witness :
    lineOpacity 1 = 229 ∧ lineOpacity (-1) = 127 :=
  ⟨(draw_frame_painter_order 0 (fun _ => 0) ⟨[], []⟩ 1).2.2.2.1 one_pos,
   (draw_frame_painter_order 0 (fun _ => 0) ⟨[], []⟩ (-1)).2.2.2.2.1 (by norm_num)⟩

theorem bandFor_cases (l : ℝ) :
    (bandFor l = Band.light ↔ 0.5 < l) ∧
    (bandFor l = Band.medium ↔ 0 < l ∧ l ≤ 0.5) ∧
    (bandFor l = Band.dark ↔ -0.3 < l ∧ l ≤ 0) ∧
    (bandFor l = Band.shadow ↔ l ≤ -0.3) := by
  unfold bandFor
  split_ifs with h1 h2 h3
  · exact ⟨iff_of_true rfl h1, iff_of_false (by simp) fun h => by linarith [h.2],
      iff_of_false (by simp) fun h => by linarith [h.2],
      iff_of_false (by simp) fun h => by linarith⟩
  · exact ⟨iff_of_false (by simp) h1, iff_of_true rfl ⟨h2, not_lt.mp h1⟩,
      iff_of_false (by simp) fun h => by linarith [h.2],
      iff_of_false (by simp) fun h => by linarith⟩
  · exact ⟨iff_of_false (by simp) h1, iff_of_false (by simp) fun h => h2 h.1,
      iff_of_true rfl ⟨h3, not_lt.mp h2⟩,
      iff_of_false (by simp) fun h => absurd h3 (not_lt.mpr h)⟩
  · exact ⟨iff_of_false (by simp) h1, iff_of_false (by simp) fun h => h2 h.1,
      iff_of_false (by simp) fun h => h3 h.1,
      iff_of_true rfl (not_lt.mp h3)⟩

theorem get_color_eq_band (pick : ℕ) (p : Point3D) :
    get_color_for_point pick p = randChoice pick (palette (bandFor (lightingOf p))) := by
  unfold get_color_for_point bandFor palette
  split_ifs <;> rfl

/-- C4: for a (midpoint) point the Shader's lighting scalar is the rotated
position divided by the radius dotted with `(-0.5, -0.7, 1)`; the color comes
from the band selected by the strict thresholds `> 0.5`, `> 0`, `> -0.3`;
a scalar of exactly 0.5 lands in the medium band; and every non-overlay
segment is colored through exactly this path off its midpoint. -/
theorem shader_band_thresholds (pick : ℕ) (p : Point3D) :
    lightingOf p = (p.rotated_x / radius) * (-0.5) + (p.rotated_y / radius) * (-0.7)
      + (p.rotated_z / radius) * 1 ∧
    get_color_for_point pick p = randChoice pick (palette (bandFor (lightingOf p))) ∧
    (∀ l : ℝ, (bandFor l = Band.light ↔ 0.5 < l) ∧
      (bandFor l = Band.medium ↔ 0 < l ∧ l ≤ 0.5) ∧
      (bandFor l = Band.dark ↔ -0.3 < l ∧ l ≤ 0) ∧
      (bandFor l = Band.shadow ↔ l ≤ -0.3)) ∧
    bandFor 0.5 = Band.medium ∧
    ∀ (pts : List Point3D) (k : ℕ) (li : Line), li.is_artifact = false →
      (shadeLine pts k li).color = get_color_for_point k (midPoint pts li) := by
  refine ⟨rfl, get_color_eq_band pick p, bandFor_cases, ?_, ?_⟩
  · rw [bandFor, if_neg (lt_irrefl _), if_pos (by norm_num)]
  · intro pts k li h
    rw [shadeLine, if_neg (by simp [h])]

theorem shader_band_thresholds_witness :
    bandFor 0.5 = Band.medium ∧
      (shadeLine [] 0 (mkLine 0 1)).color = get_color_for_point 0 (midPoint [] (mkLine 0 1)) :=
  ⟨(shader_band_thresholds 0 default).2.2.2.1,
   (shader_band_thresholds 0 default).2.2.2.2 [] 0 (mkLine 0 1) rfl⟩

theorem spherePoint_normSq (θ φ : ℝ) :
    (spherePoint θ φ).x ^ 2 + (spherePoint θ φ).y ^ 2 + (spherePoint θ φ).z ^ 2
      = radius ^ 2 := by
  have h1 : (spherePoint θ φ).x ^ 2 + (spherePoint θ φ).y ^ 2 + (spherePoint θ φ).z ^ 2
      = radius ^ 2 * (Real.sin θ ^ 2 * (Real.cos φ ^ 2 + Real.sin φ ^ 2)
        + Real.cos θ ^ 2) := by
    simp only [spherePoint, mkPoint3D]
    ring
  rw [h1, Real.cos_sq_add_sin_sq, mul_one, Real.sin_sq_add_cos_sq, mul_one]

theorem rot_sq_le (x y z t a : ℝ) :
    (-x * Real.sin a + (y * Real.sin t + z * Real.cos t) * Real.cos a) ^ 2
      ≤ x ^ 2 + y ^ 2 + z ^ 2 := by
  have ha := Real.sin_sq_add_cos_sq a
  have ht := Real.sin_sq_add_cos_sq t
  have k1 : (-x * Real.sin a + (y * Real.sin t + z * Real.cos t) * Real.cos a) ^ 2
      + (x * Real.cos a + (y * Real.sin t + z * Real.cos t) * Real.sin a) ^ 2
      = (x ^ 2 + (y * Real.sin t + z * Real.cos t) ^ 2)
        * (Real.sin a ^ 2 + Real.cos a ^ 2) := by ring
  have k2 : (y * Real.sin t + z * Real.cos t) ^ 2
      + (y * Real.cos t - z * Real.sin t) ^ 2
      = (y ^ 2 + z ^ 2) * (Real.sin t ^ 2 + Real.cos t ^ 2) := by ring
  rw [ha, mul_one] at k1
  rw [ht, mul_one] at k2
  linarith [sq_nonneg (x * Real.cos a + (y * Real.sin t + z * Real.cos t) * Real.sin a),
    sq_nonneg (y * Real.cos t - z * Real.sin t)]

/-- Every point of the freshly built arena is a spherical sample: each
builder computes its coordinates by the same `radius`-scaled
parameterisation. -/
theorem initPoints_on_sphere (u : ℕ → ℝ) :
    ∀ p ∈ initPoints u, ∃ θ φ, p = spherePoint θ φ := by
  intro p hp
  simp only [initPoints, create_sphere_points, create_shading_lines, create_w_artifact,
    List.mem_append, List.mem_flatMap, List.mem_map, List.mem_range] at hp
  rcases hp with (hp | hp) | hp
  · obtain ⟨lat, hlat, lon, hlon, rfl⟩ := hp
    exact ⟨_, _, rfl⟩
  · obtain ⟨s, hs, hmem⟩ := hp
    obtain ⟨i, hi, rfl⟩ := hs
    simp only [List.mem_cons, List.not_mem_nil, or_false] at hmem
    rcases hmem with rfl | rfl
    · exact ⟨_, _, rfl⟩
    · exact ⟨_, _, rfl⟩
  · obtain ⟨s, hs, hmem⟩ := hp
    obtain ⟨i, hi, rfl⟩ := hs
    simp only [List.mem_cons, List.not_mem_nil, or_false] at hmem
    rcases hmem with rfl | rfl
    · exact ⟨_, _, rfl⟩
    · exact ⟨_, _, rfl⟩

/-- C5: for every point of the generator's arena and every frame angle, the
projection denominator `800 + rotated_z` stays strictly positive: the
geometry lies on the sphere of radius 120 and rotation preserves that
bound. -/
theorem projection_denominator_pos (u : ℕ → ℝ) (a : ℝ) (p : Point3D)
    (hp : p ∈ initPoints u) :
    0 < 800 + (updatePoint a p).rotated_z := by
  obtain ⟨θ, φ, rfl⟩ := initPoints_on_sphere u p hp
  have h1 := spherePoint_normSq θ φ
  have h2 : (updatePoint a (spherePoint θ φ)).rotated_z ^ 2
      ≤ (spherePoint θ φ).x ^ 2 + (spherePoint θ φ).y ^ 2
        + (spherePoint θ φ).z ^ 2 := by
    have hz : (updatePoint a (spherePoint θ φ)).rotated_z
        = -(spherePoint θ φ).x * Real.sin a
          + ((spherePoint θ φ).y * Real.sin axial_tilt
            + (spherePoint θ φ).z * Real.cos axial_tilt) * Real.cos a := rfl
    rw [hz]
    exact rot_sq_le _ _ _ _ _
  rw [h1, radius_eq] at h2
  nlinarith [h2, sq_nonneg ((updatePoint a (spherePoint θ φ)).rotated_z + 800)]

theorem spherePoint_zero_mem (u : ℕ → ℝ) : spherePoint 0 0 ∈ initPoints u := by
  rw [initPoints]
  refine List.mem_append_left _ (List.mem_append_left _ ?_)
  rw [create_sphere_points]
  refine List.mem_flatMap.mpr ⟨0, List.mem_range.mpr (Nat.succ_pos _), ?_⟩
  refine List.mem_map.mpr ⟨0, List.mem_range.mpr (Nat.succ_pos _), ?_⟩
  congr 1 <;> norm_num

theorem projection_denominator_pos_witness :
    0 < 800 + (updatePoint 0 (spherePoint 0 0)).rotated_z :=
  projection_denominator_pos (fun _ => 0) 0 (spherePoint 0 0) (spherePoint_zero_mem _)

theorem shadeLines_length (pts : List Point3D) (picks : ℕ → ℕ) :
    ∀ (k : ℕ) (ls : List Line), (shadeLines pts picks k ls).length = ls.length := by
  intro k ls
  induction ls generalizing k with
  | nil => rfl
  | cons l rest ih => simp [shadeLines, ih]

theorem shadeLine_endpoints (pts : List Point3D) (pick : ℕ) (l : Line) :
    (shadeLine pts pick l).point1 = l.point1 ∧ (shadeLine pts pick l).point2 = l.point2 ∧
      (shadeLine pts pick l).is_artifact = l.is_artifact := by
  rw [shadeLine]
  split_ifs <;> exact ⟨rfl, rfl, rfl⟩

theorem shadeLines_getD (pts : List Point3D) (picks : ℕ → ℕ) :
    ∀ (k i : ℕ) (ls : List Line),
      ((shadeLines pts picks k ls).getD i default).point1 = (ls.getD i default).point1 ∧
      ((shadeLines pts picks k ls).getD i default).point2 = (ls.getD i default).point2 ∧
      ((shadeLines pts picks k ls).getD i default).is_artifact
        = (ls.getD i default).is_artifact := by
  intro k i ls
  induction ls generalizing k i with
  | nil => exact ⟨rfl, rfl, rfl⟩
  | cons l rest ih =>
    cases i with
    | zero => simpa [shadeLines] using shadeLine_endpoints pts (picks k) l
    | succ j => simpa [shadeLines] using ih (k + 1) j

theorem map_updatePoint_getD (a : ℝ) :
    ∀ (l : List Point3D) (i : ℕ),
      ((l.map (updatePoint a)).getD i default).x = (l.getD i default).x ∧
      ((l.map (updatePoint a)).getD i default).y = (l.getD i default).y ∧
      ((l.map (updatePoint a)).getD i default).z = (l.getD i default).z := by
  intro l
  induction l with
  | nil => intro i; exact ⟨rfl, rfl, rfl⟩
  | cons p rest ih =>
    intro i
    cases i with
    | zero => exact ⟨rfl, rfl, rfl⟩
    | succ j => simpa using ih j

/-- C6: rendering a frame keeps the geometry set intact: `draw_frame` only
mutates through `update_geometry`, which preserves the number of points and
segments, every point's original `x/y/z`, and every segment's endpoint
references and overlay flag — only the transient rotated/projected fields
and the segment color/width are recomputed, so the startup shading strokes
stay fixed for the whole animation. -/
theorem frame_preserves_geometry (a : ℝ) (picks : ℕ → ℕ) (s : GenState) :
    (draw_frame a picks s).1 = update_geometry a picks s ∧
    (update_geometry a picks s).points.length = s.points.length ∧
    (update_geometry a picks s).lines.length = s.lines.length ∧
    (∀ i : ℕ,
      ((update_geometry a picks s).points.getD i default).x
          = (s.points.getD i default).x ∧
      ((update_geometry a picks s).points.getD i default).y
          = (s.points.getD i default).y ∧
      ((update_geometry a picks s).points.getD i default).z
          = (s.points.getD i default).z) ∧
    (∀ i : ℕ,
      ((update_geometry a picks s).lines.getD i default).point1
          = (s.lines.getD i default).point1 ∧
      ((update_geometry a picks s).lines.getD i default).point2
          = (s.lines.getD i default).point2 ∧
      ((update_geometry a picks s).lines.getD i default).is_artifact
          = (s.lines.getD i default).is_artifact) := by
  refine ⟨rfl, by simp [update_geometry], ?_, ?_, ?_⟩
  · exact shadeLines_length _ picks 0 s.lines
  · intro i
    exact map_updatePoint_getD a s.points i
  · intro i
    exact shadeLines_getD _ picks 0 i s.lines

/-- C7 counterexample: invoked with a frame count of 0 the generator does not
fail fast with a configuration error; it silently renders no frame and then
fails with an `IndexError` at `images[0]`. -/
theorem generate_gif_zero_frames_no_config_error :
    generate_gif (fun _ => 0) (fun _ => 0) 0 = Except.error PyError.indexError ∧
      (Except.error PyError.indexError :
        Except PyError (List (List (Line × ℤ)))) ≠ Except.error PyError.configError := by
  exact ⟨rfl, by simp⟩

/-- C7 amended: `generate_gif` performs no configuration validation.  For any
non-positive frame count it renders no frames and fails with an `IndexError`
when accessing `images[0]`, and no run of `generate_gif` ever produces a
configuration error. -/
theorem generate_gif_invalid_frames (u : ℕ → ℝ) (picks : ℕ → ℕ) (frames : ℤ)
    (h : frames ≤ 0) :
    generate_gif u picks frames = Except.error PyError.indexError ∧
    ∀ g : ℤ, generate_gif u picks g ≠ Except.error PyError.configError := by
  constructor
  · have h0 : pyRange frames = [] := by
      rw [pyRange, Int.toNat_of_nonpos h, List.range_zero]
    rw [generate_gif, h0]
    rfl
  · intro g
    rw [generate_gif]
    cases hr : runFrames picks ⟨initPoints u, initLines⟩
        ((pyRange g).map fun (f : ℕ) =>
          start_angle + ((f : ℝ) * (2 * π)) / (g : ℝ)) with
    | nil => simp
    | cons x xs => simp

theorem generate_gif_invalid_frames_witness :
    generate_gif (fun _ => 0) (fun _ => 0) (-1) = Except.error PyError.indexError :=
  (generate_gif_invalid_frames (fun _ => 0) (fun _ => 0) (-1) (by norm_num)).1

/-- The concrete random stream for the shading-bias counterexample: the first
draw gives θ₁ = π/2, the second gives φ₁ = π, all later draws are 0 (so the
bias draw is 0 < 0.6 and the bias is applied). -/
noncomputable def uNeg : ℕ → ℝ := fun n =>
  if n = 0 then 1 / 2 else if n = 1 then 1 / 2 else 0

/-- C8 counterexample: a biased iteration whose first sample point has a
strictly negative z coordinate — the bias draw is below 0.6, yet the first
endpoint's z is negative, contradicting the claim that it is positive
whenever the bias is applied. -/
theorem shading_bias_negative_z :
    uNeg 2 < 0.6 ∧ (shadingStroke uNeg 0).1.z < 0 := by
  have hb : uNeg 2 < 0.6 := by norm_num [uNeg]
  refine ⟨hb, ?_⟩
  have hφ : finalPhi uNeg 0 = π + π / 4 := by
    rw [finalPhi, if_pos hb]
    norm_num [uNeg]
    ring
  have hθ : uNeg 0 * π = π / 2 := by
    norm_num [uNeg]
    ring
  have hz : (shadingStroke uNeg 0).1.z
      = radius * Real.sin (uNeg 0 * π) * Real.sin (finalPhi uNeg 0) := rfl
  rw [hz, hθ, hφ, Real.sin_pi_div_two, radius_eq]
  have hs : Real.sin (π + π / 4) < 0 := by
    rw [Real.sin_add, Real.sin_pi, Real.cos_pi]
    have h4 : 0 < Real.sin (π / 4) :=
      Real.sin_pos_of_pos_of_lt_pi (by positivity) (by linarith [Real.pi_pos])
    nlinarith
  nlinarith

/-- C8 amended: `create_shading_lines` produces exactly `density` strokes for
every random stream, and in every iteration whose bias draw is below 0.6 the
first sample's azimuth is remapped to `0.5·φ₁ + 0.75π`, compressing it into
`[0.75π, 1.75π)` — the first endpoint is the spherical sample at that
azimuth (whose z coordinate is negative whenever the remapped azimuth
exceeds π, so it is not always positive). -/
theorem shading_stroke_count_and_bias (u : ℕ → ℝ) (hu : ∀ n, 0 ≤ u n ∧ u n < 1)
    (density : ℕ) :
    (create_shading_lines u density).length = density ∧
    (∀ i : ℕ, (shadingStroke u i).1 = spherePoint (u (5 * i) * π) (finalPhi u i)) ∧
    ∀ i : ℕ, u (5 * i + 2) < 0.6 →
      finalPhi u i = (u (5 * i + 1) * (2 * π)) * 0.5 + π * 0.75 ∧
      π * 0.75 ≤ finalPhi u i ∧ finalPhi u i < π * 1.75 := by
  refine ⟨by simp [create_shading_lines], fun i => rfl, ?_⟩
  intro i hb
  have he : finalPhi u i = (u (5 * i + 1) * (2 * π)) * 0.5 + π * 0.75 := by
    rw [finalPhi, if_pos hb]
  refine ⟨he, ?_, ?_⟩
  · rw [he]
    have h1 := (hu (5 * i + 1)).1
    nlinarith [Real.pi_pos]
  · rw [he]
    have h1 := (hu (5 * i + 1)).2
    nlinarith [Real.pi_pos]

theorem shading_stroke_count_and_bias_witness :
    (create_shading_lines (fun _ => 0) 3).length = 3 ∧
      π * 0.75 ≤ finalPhi (fun _ => 0) 0 :=
  ⟨(shading_stroke_count_and_bias (fun _ => 0) (fun _ => ⟨le_refl 0, by norm_num⟩) 3).1,
   ((shading_stroke_count_and_bias (fun _ => 0) (fun _ => ⟨le_refl 0, by norm_num⟩) 3).2.2
      0 (by norm_num)).2.1⟩

theorem shadeLine_width_nonartifact (pts : List Point3D) (pick : ℕ) (l : Line)
    (h : l.is_artifact = false) :
    (shadeLine pts pick l).width = 0.8 ∨ (shadeLine pts pick l).width = 0.4 := by
  rw [shadeLine, if_neg (by simp [h])]
  split_ifs
  · exact Or.inl rfl
  · exact Or.inr rfl

theorem shadeLine_width_mem (pts : List Point3D) (pick : ℕ) (l : Line) :
    (shadeLine pts pick l).width = 8.0 ∨ (shadeLine pts pick l).width = 0.8 ∨
      (shadeLine pts pick l).width = 0.4 := by
  rw [shadeLine]
  split_ifs
  · exact Or.inl rfl
  · exact Or.inl rfl
  · exact Or.inr (Or.inl rfl)
  · exact Or.inr (Or.inr rfl)

theorem shadeLines_width (pts : List Point3D) (picks : ℕ → ℕ) :
    ∀ (k : ℕ) (ls : List Line), ∀ l ∈ shadeLines pts picks k ls,
      l.width = 8.0 ∨ l.width = 0.8 ∨ l.width = 0.4 := by
  intro k ls
  induction ls generalizing k with
  | nil => intro l hl; simp [shadeLines] at hl
  | cons a rest ih =>
    intro l hl
    simp only [shadeLines, List.mem_cons] at hl
    rcases hl with rfl | hl
    · exact shadeLine_width_mem pts (picks k) a
    · exact ih (k + 1) l hl

theorem shadeLines_width_nonartifact (pts : List Point3D) (picks : ℕ → ℕ) :
    ∀ (k : ℕ) (ls : List Line), ∀ l ∈ shadeLines pts picks k ls,
      l.is_artifact = false → l.width = 0.8 ∨ l.width = 0.4 := by
  intro k ls
  induction ls generalizing k with
  | nil => intro l hl; simp [shadeLines] at hl
  | cons a rest ih =>
    intro l hl hfl
    simp only [shadeLines, List.mem_cons] at hl
    rcases hl with rfl | hl
    · have ha : a.is_artifact = false := by
        rw [← (shadeLine_endpoints pts (picks k) a).2.2]
        exact hfl
      exact shadeLine_width_nonartifact pts (picks k) a ha
    · exact ih (k + 1) l hl hfl

theorem lineIntWidth_eq_round_on_shader (W : ℝ)
    (h : W = 8.0 ∨ W = 0.8 ∨ W = 0.4) :
    lineIntWidth W = max 1 (round W) := by
  rcases h with rfl | rfl | rfl
  · rw [lineIntWidth, pyInt, if_pos (by norm_num : (0 : ℝ) ≤ 8.0)]
    norm_num [round_eq]
  · rw [lineIntWidth, pyInt, if_pos (by norm_num : (0 : ℝ) ≤ 0.8)]
    norm_num [round_eq]
  · rw [lineIntWidth, pyInt, if_pos (by norm_num : (0 : ℝ) ≤ 0.4)]
    norm_num [round_eq]

/-- C9: every segment a frame draws has a shader-assigned width, and for all
of those the renderer's integer width `max(1, int(W))` agrees with
`max(1, round(W))`, the stroke being rendered as a `w × w` grid of draws
offset by `(i − w÷2, j − w÷2)` for `i, j ∈ [0, w)`. -/
theorem width_simulation_grid (a : ℝ) (picks : ℕ → ℕ) (s : GenState) :
    ∀ l ∈ (update_geometry a picks s).lines,
      lineIntWidth l.width = max 1 (round l.width) ∧
      drawOffsets l.width =
        (List.range (lineIntWidth l.width).toNat).flatMap fun (i : ℕ) =>
          (List.range (lineIntWidth l.width).toNat).map fun (j : ℕ) =>
            ((i : ℤ) - lineIntWidth l.width / 2, (j : ℤ) - lineIntWidth l.width / 2) := by
  intro l hl
  have hw : l.width = 8.0 ∨ l.width = 0.8 ∨ l.width = 0.4 :=
    shadeLines_width _ picks 0 s.lines l hl
  exact ⟨lineIntWidth_eq_round_on_shader l.width hw, by simp only [drawOffsets]⟩

theorem width_simulation_grid_witness :
    lineIntWidth (shadeLine [] 0 (mkLine 0 1)).width =
      max 1 (round (shadeLine [] 0 (mkLine 0 1)).width) :=
  (width_simulation_grid 0 (fun _ => 0) ⟨[], [mkLine 0 1]⟩ (shadeLine [] 0 (mkLine 0 1))
    (List.mem_singleton_self _)).1

theorem lineIntWidth_small {W : ℝ} (h : W = 0.8 ∨ W = 0.4) : lineIntWidth W = 1 := by
  rcases h with rfl | rfl
  · rw [lineIntWidth, pyInt, if_pos (by norm_num : (0 : ℝ) ≤ 0.8)]
    norm_num
  · rw [lineIntWidth, pyInt, if_pos (by norm_num : (0 : ℝ) ≤ 0.4)]
    norm_num

/-- C10: every non-overlay segment leaves the shader with width 0.8 (facing
camera) or 0.4 (facing away), and in both cases the renderer's integer width
`max(1, int(width))` is 1, so the stroke is rasterized as a single
zero-offset 1-pixel line draw — the width distinction has no effect on the
rasterized output. -/
theorem nonoverlay_width_collapses (a : ℝ) (picks : ℕ → ℕ) (s : GenState) :
    ∀ l ∈ (update_geometry a picks s).lines, l.is_artifact = false →
      (l.width = 0.8 ∨ l.width = 0.4) ∧ lineIntWidth l.width = 1 ∧
      drawOffsets l.width = [((0 : ℤ), (0 : ℤ))] := by
  intro l hl hfl
  have hw : l.width = 0.8 ∨ l.width = 0.4 :=
    shadeLines_width_nonartifact _ picks 0 s.lines l hl hfl
  have h1 : lineIntWidth l.width = 1 := lineIntWidth_small hw
  refine ⟨hw, h1, ?_⟩
  simp only [drawOffsets, h1]
  norm_num [show List.range 1 = [0] from rfl, List.flatMap_cons, List.flatMap_nil]

theorem nonoverlay_width_collapses_witness :
    lineIntWidth (shadeLine [] 0 (mkLine 0 1)).width = 1 :=
  (nonoverlay_width_collapses 0 (fun _ => 0) ⟨[], [mkLine 0 1]⟩
    (shadeLine [] 0 (mkLine 0 1)) (List.mem_singleton_self _) rfl).2.1

end MarsGif
